import Mathlib

set_option maxRecDepth 100000

/-
Verification of the SD-card controller in src/sd_controller.cpp of the
heltec_ab0_sdcard_stress_test repository.

The development is a shallow embedding at two levels, both translated from
the source:

At the byte level, the software-SPI bus is a state `Bus`: an input stream
(the byte read by each successive `spi_transfer` call, i.e. what the card
drives on MISO), the position of the next transfer, and the log of bytes
sent on MOSI.  `spi_transfer`, the busy wait, the command frame and the R1
response poll of `sd_send_cmd` are transcribed over it.

At the block level, a state `Sys` carries the module statics of
sd_controller.cpp, the 512-byte scratch `sector_buffer` (as a function from
byte index to value), the card contents (sector number, byte index to
value), and oracles: the success bit of each successive sector read/write,
the R1 response of each successive `sd_send_cmd` call made by `sd_mount`,
and the bytes returned by the raw `spi_transfer` reads (OCR echoes).  The
FAT32 layer, the mount sequence, the append writer and the health check
are transcribed over it.  Sector reads and writes are primitive at this
level: the CMD17/CMD24 framing, the SDHC byte-versus-sector addressing and
the data tokens live below the abstraction, with a read delivering the
card's sector into the buffer and a write storing the buffer, each
succeeding or failing as its oracle bit says.  Wall-clock fields
(last_init_time_us, last_write_time_us, micros()) are outside the model;
no claim mentions them.  `GET_BATTERY_MV()` and `GET_FREE_HEAP()` are
environment readings and enter `sd_write_csv_line` as parameters.

Machine integers are Nat with explicit truncation: `u32`/`u16` mirror
`uint32_t`/`uint16_t` where wrap-around is possible.
-/

/- Truncation to the width of uint32_t. -/
def u32 (n : Nat) : Nat := n % 4294967296

/- Truncation to the width of uint16_t. -/
def u16 (n : Nat) : Nat := n % 65536

/- Error codes of sd_error_t in include/config.h. -/
def ERR_NONE : Nat := 0
def ERR_SD_INIT_FAILED : Nat := 1
def ERR_SD_MOUNT_FAILED : Nat := 2
def ERR_FILE_OPEN_FAILED : Nat := 3
def ERR_FILE_WRITE_FAILED : Nat := 4
def ERR_SD_CARD_TYPE_UNKNOWN : Nat := 10
def ERR_FAT_VOLUME_FAILED : Nat := 11
def ERR_BUFFER_OVERFLOW : Nat := 12
def ERR_UNKNOWN : Nat := 255

/- Card types (CT_NONE .. CT_SDHC in sd_controller.cpp). -/
def CT_NONE : Nat := 0
def CT_SD1 : Nat := 1
def CT_SD2 : Nat := 2
def CT_SDHC : Nat := 3

/- ============================================================ -/
/- Byte-level model of the software SPI link and sd_send_cmd.   -/
/- ============================================================ -/

/- State of the bit-banged SPI bus.  `stream n` is the byte the card
returns on the n-th `spi_transfer`; `sent` logs the bytes the controller
shifted out on MOSI, in order. -/
structure Bus where
  stream : Nat → Nat
  pos : Nat
  sent : List Nat

/- spi_transfer(data): full-duplex byte exchange.  Returns the byte read
from MISO and the bus state after the transfer. -/
def spi_transfer (b : Bus) (data : Nat) : Nat × Bus :=
  (b.stream b.pos % 256,
   { stream := b.stream, pos := b.pos + 1, sent := b.sent ++ [data % 256] })

/- spi_deselect(): raises CS and clocks one dummy 0xFF byte. -/
def spi_deselect (b : Bus) : Bus := (spi_transfer b 0xFF).2

/- Busy wait of sd_send_cmd: read bytes until one equals 0xFF.  The C loop
gives up after 201 bytes that are not 0xFF (retry counter crosses 200), so
`fuel = 200` reproduces it: with fuel f the loop reads at most f + 1 bytes.
Returns whether the bus became ready, with the bus state after the loop. -/
def wait_ready : Nat → Bus → Bool × Bus
  | 0, b =>
      let p := spi_transfer b 0xFF
      (p.1 == 0xFF, p.2)
  | fuel + 1, b =>
      let p := spi_transfer b 0xFF
      if p.1 == 0xFF then (true, p.2) else wait_ready fuel p.2

/- The six-byte command frame of sd_send_cmd: 0x40|cmd, the four big-endian
argument bytes, then the CRC literal (0x95 for CMD0, 0x87 for CMD8, 0xFF
for every other command, exactly as lines 161-165 of the source). -/
def send_frame (b : Bus) (cmd arg : Nat) : Bus :=
  let b1 := (spi_transfer b (0x40 ||| cmd)).2
  let b2 := (spi_transfer b1 (arg / 16777216)).2
  let b3 := (spi_transfer b2 (arg / 65536)).2
  let b4 := (spi_transfer b3 (arg / 256)).2
  let b5 := (spi_transfer b4 arg).2
  let crc := if cmd = 0 then 0x95 else if cmd = 8 then 0x87 else 0xFF
  (spi_transfer b5 crc).2

/- Response poll of sd_send_cmd: `do response = spi_transfer(0xFF) while
((response & 0x80) && (++retry < 10))`.  With initial fuel 9 the loop reads
at most 10 bytes and returns the last byte read. -/
def poll_r1 : Nat → Bus → Nat × Bus
  | 0, b => spi_transfer b 0xFF
  | fuel + 1, b =>
      let p := spi_transfer b 0xFF
      if 128 ≤ p.1 then poll_r1 fuel p.2 else p

/- sd_send_cmd without the ACMD wrapping: deselect-plus-select, busy wait
(0xFF returned on its timeout), the command frame, then the response poll. -/
def sd_send_cmd_frame (b : Bus) (cmd arg : Nat) : Nat × Bus :=
  let b1 := spi_deselect b
  let w := wait_ready 200 b1
  if w.1 then poll_r1 9 (send_frame w.2 cmd arg)
  else (0xFF, w.2)

/- sd_send_cmd(cmd, arg), including the ACMD wrapping: a command with the
high bit set first issues CMD55 and aborts with its response when that
response exceeds 1. -/
def sd_send_cmd (b : Bus) (cmd arg : Nat) : Nat × Bus :=
  let c := cmd % 256
  let a := u32 arg
  if 128 ≤ c then
    let inner := sd_send_cmd_frame b 55 0
    if 1 < inner.1 then inner
    else sd_send_cmd_frame inner.2 (c % 128) a
  else sd_send_cmd_frame b c a

/- ============================================================ -/
/- Block-level model: module statics, card contents, oracles.   -/
/- ============================================================ -/

/- The module statics of sd_controller.cpp together with the card and the
oracles.  buf is sector_buffer; card gives each sector's byte contents;
ioOk n is the success bit of the n-th sector read/write; cmdResp n is the
R1 response of the n-th sd_send_cmd call made by the mount sequence; aux is
the stream feeding raw spi_transfer reads (OCR echo bytes).  readLog and
writeLog record the sectors offered to sd_read_sector/sd_write_sector, in
order.  Fields mirror the C statics' widths; values are kept in range by
u32/u16 at each assignment that could wrap. -/
structure Sys where
  sd_initialized : Bool
  sd_mounted : Bool
  card_type : Nat
  current_spi_freq : Nat
  header_written : Bool
  csv_next_sector : Nat
  csv_byte_offset : Nat
  bytes_per_sector : Nat
  sectors_per_cluster : Nat
  reserved_sectors : Nat
  num_fats : Nat
  sectors_per_fat : Nat
  root_cluster : Nat
  fat_start_sector : Nat
  data_start_sector : Nat
  total_sectors : Nat
  buf : Nat → Nat
  card : Nat → Nat → Nat
  ioOk : Nat → Bool
  ioCount : Nat
  readLog : List Nat
  writeLog : List Nat
  cmdResp : Nat → Nat
  cmdCount : Nat
  aux : Nat → Nat
  auxPos : Nat

/- sd_read_sector(sector, sector_buffer): on success the buffer receives
the card's sector; on failure (CMD17 rejected or token timeout, decided by
the io oracle) the buffer is untouched, as every failing path of the C
function exits before the data phase. -/
def sd_read_sector (s : Sys) (sector : Nat) : Bool × Sys :=
  let ok := s.ioOk s.ioCount
  let s1 := { s with ioCount := s.ioCount + 1, readLog := s.readLog ++ [sector] }
  if ok then (true, { s1 with buf := fun i => s.card sector i % 256 })
  else (false, s1)

/- sd_write_sector(sector, sector_buffer): on success the card's sector
becomes the buffer contents. -/
def sd_write_sector (s : Sys) (sector : Nat) : Bool × Sys :=
  let ok := s.ioOk s.ioCount
  let s1 := { s with ioCount := s.ioCount + 1, writeLog := s.writeLog ++ [sector] }
  if ok then
    (true, { s1 with card := fun sec =>
        if sec = sector then fun i => s.buf i % 256 else s.card sec })
  else (false, s1)

/- sd_send_cmd as sd_mount sees it at the block level: the R1 response of
the n-th command issued is the oracle value cmdResp n (the byte-level model
above refines one such call). -/
def sd_cmd (s : Sys) (_cmd _arg : Nat) : Nat × Sys :=
  (s.cmdResp s.cmdCount % 256, { s with cmdCount := s.cmdCount + 1 })

/- spi_deselect() at the block level: its dummy 0xFF transfer consumes one
byte of the auxiliary stream. -/
def deselect (s : Sys) : Sys := { s with auxPos := s.auxPos + 1 }

/- A raw spi_transfer(0xFF) data read (used for the OCR echo bytes). -/
def aux_read (s : Sys) : Nat × Sys :=
  (s.aux s.auxPos % 256, { s with auxPos := s.auxPos + 1 })

/- ============================================================ -/
/- FAT32 layer (lines 264-440 of sd_controller.cpp).            -/
/- ============================================================ -/

/- cluster_to_sector: data_start_sector + (cluster - 2) * sectors_per_cluster
in uint32 arithmetic (the subtraction wraps for cluster < 2). -/
def cluster_to_sector (s : Sys) (cluster : Nat) : Nat :=
  u32 (s.data_start_sector +
       u32 (u32 (cluster + 4294967296 - 2) * s.sectors_per_cluster))

/- fat32_read_bpb: read sector 0; without the 0x55AA trailer treat it as a
partition table, follow the first entry's LBA at offset 0x1C6 and re-read;
the final sector must carry the trailer; then parse the BPB fields at their
fixed offsets and derive the FAT and data region starts. -/
def fat32_read_bpb (s : Sys) : Bool × Sys :=
  match sd_read_sector s 0 with
  | (false, s1) => (false, s1)
  | (true, s1) =>
    let afterSig : Bool × Sys :=
      if s1.buf 510 ≠ 0x55 ∨ s1.buf 511 ≠ 0xAA then
        let part_start := s1.buf 0x1C6 + s1.buf 0x1C7 * 256 +
                          s1.buf 0x1C8 * 65536 + s1.buf 0x1C9 * 16777216
        if part_start = 0 then (false, s1)
        else
          match sd_read_sector s1 part_start with
          | (false, s2) => (false, s2)
          | (true, s2) => (true, { s2 with fat_start_sector := part_start })
      else (true, { s1 with fat_start_sector := 0 })
    match afterSig with
    | (false, s2) => (false, s2)
    | (true, s2) =>
      if s2.buf 510 ≠ 0x55 ∨ s2.buf 511 ≠ 0xAA then (false, s2)
      else
        let s3 := { s2 with
          bytes_per_sector := s2.buf 0x0B + s2.buf 0x0C * 256,
          sectors_per_cluster := s2.buf 0x0D,
          reserved_sectors := s2.buf 0x0E + s2.buf 0x0F * 256,
          num_fats := s2.buf 0x10,
          sectors_per_fat := s2.buf 0x24 + s2.buf 0x25 * 256 +
                             s2.buf 0x26 * 65536 + s2.buf 0x27 * 16777216,
          root_cluster := s2.buf 0x2C + s2.buf 0x2D * 256 +
                          s2.buf 0x2E * 65536 + s2.buf 0x2F * 16777216,
          total_sectors := s2.buf 0x20 + s2.buf 0x21 * 256 +
                           s2.buf 0x22 * 65536 + s2.buf 0x23 * 16777216 }
        let s4 := { s3 with
          fat_start_sector := u32 (s3.fat_start_sector + s3.reserved_sectors) }
        (true, { s4 with
          data_start_sector :=
            u32 (s4.fat_start_sector + u32 (s4.num_fats * s4.sectors_per_fat)) })

/- The fixed 8.3 name "SD_TEST CSV" as its 11 ASCII bytes. -/
def nameBytes : List Nat := [83, 68, 95, 84, 69, 83, 84, 32, 67, 83, 86]

/- memcmp(entry, "SD_TEST CSV", 11) == 0 on the loaded buffer. -/
def entry_matches (buf : Nat → Nat) (base : Nat) : Bool :=
  (List.range 11).all fun k => buf (base + k) == nameBytes.getD k 0

/- Directory scan of fat32_find_or_create_file: up to 16 entries of 32
bytes in the loaded root-directory sector.  Returns (found, free_entry,
state); free_entry = 255 encodes "none yet".  Byte 0 = 0x00 ends the scan
(claiming the slot as free when none was seen); 0xE5 marks a reusable slot;
a name match sets the cursor from the entry's start cluster and file size
and marks the header as already written (lines 349-386 of the source). -/
def scan_dir (s : Sys) : Nat → Nat → Nat → Bool × Nat × Sys
  | free, _i, 0 => (false, free, s)
  | free, i, fuel + 1 =>
    let e0 := s.buf (i * 32)
    if e0 = 0 then
      (false, if free = 255 then i else free, s)
    else if e0 = 0xE5 then
      scan_dir s (if free = 255 then i else free) (i + 1) fuel
    else if entry_matches s.buf (i * 32) then
      let start_cluster := s.buf (i * 32 + 0x1A) + s.buf (i * 32 + 0x1B) * 256 +
                           s.buf (i * 32 + 0x14) * 65536 +
                           s.buf (i * 32 + 0x15) * 16777216
      let file_size := s.buf (i * 32 + 0x1C) + s.buf (i * 32 + 0x1D) * 256 +
                       s.buf (i * 32 + 0x1E) * 65536 +
                       s.buf (i * 32 + 0x1F) * 16777216
      (true, free,
        { s with header_written := true,
                 csv_next_sector :=
                   u32 (cluster_to_sector s start_cluster + file_size / 512),
                 csv_byte_offset := file_size % 512 })
    else scan_dir s free (i + 1) fuel

/- The fresh directory entry written on creation: the 8.3 name, archive
attribute, fixed start cluster 3, size 0 (lines 390-408 of the source). -/
def write_entry (buf : Nat → Nat) (base : Nat) : Nat → Nat := fun j =>
  if j < base then buf j
  else
    let k := j - base
    if k < 11 then nameBytes.getD k 0
    else if k = 0x0B then 0x20
    else if k = 0x14 ∨ k = 0x15 then 0
    else if k = 0x1A then 3
    else if k = 0x1B then 0
    else if k = 0x1C ∨ k = 0x1D ∨ k = 0x1E ∨ k = 0x1F then 0
    else buf j

/- fat32_find_or_create_file: read the single root-directory sector, scan
it; on a miss with a free slot, write the new entry, set the cursor to the
start of cluster 3, and mark cluster 3 end-of-chain in the first FAT copy
(entry offset 3 * 4 = 12 within the FAT's first sector). -/
def fat32_find_or_create_file (s : Sys) : Bool × Sys :=
  let root_sector := cluster_to_sector s s.root_cluster
  match sd_read_sector s root_sector with
  | (false, s1) => (false, s1)
  | (true, s1) =>
    match scan_dir s1 255 0 16 with
    | (true, _, s2) => (true, s2)
    | (false, free, s2) =>
      if free < 16 then
        let s3 := { s2 with buf := write_entry s2.buf (free * 32) }
        match sd_write_sector s3 root_sector with
        | (false, s4) => (false, s4)
        | (true, s4) =>
          let s5 := { s4 with csv_next_sector := cluster_to_sector s4 3,
                              csv_byte_offset := 0, header_written := false }
          match sd_read_sector s5 s5.fat_start_sector with
          | (false, s6) => (false, s6)
          | (true, s6) =>
            let fat_sector_offset := 3 * 4 % 512
            let marked : Nat → Nat := fun j =>
              if j = fat_sector_offset then 0xFF
              else if j = fat_sector_offset + 1 then 0xFF
              else if j = fat_sector_offset + 2 then 0xFF
              else if j = fat_sector_offset + 3 then 0x0F
              else s6.buf j
            let s7 := { s6 with buf := marked }
            match sd_write_sector s7 s7.fat_start_sector with
            | (false, s8) => (false, s8)
            | (true, s8) => (true, s8)
      else (false, s2)

/- ============================================================ -/
/- Mount sequence (lines 457-592 of sd_controller.cpp).         -/
/- ============================================================ -/

/- CMD0 retry loop: do-while until R1 = 0x01 with retry ceiling 100, so
fuel 99 gives at most 100 attempts. -/
def cmd0_loop (s : Sys) : Nat → Nat × Sys
  | 0 => sd_cmd s 0 0
  | fuel + 1 =>
      let p := sd_cmd s 0 0
      if p.1 ≠ 1 then cmd0_loop p.2 fuel else p

/- ACMD41 retry loop: do-while until R1 = 0 with retry ceiling 1000, so
fuel 999 gives at most 1000 attempts. -/
def acmd41_loop (arg : Nat) : Nat → Sys → Nat × Sys
  | 0, s => sd_cmd s (0x80 ||| 0x29) arg
  | fuel + 1, s =>
      let p := sd_cmd s (0x80 ||| 0x29) arg
      if p.1 ≠ 0 then acmd41_loop arg fuel p.2 else p

/- sd_unmount: clear the mounted flag and deselect; always ERR_NONE. -/
def sd_unmount (s : Sys) : Nat × Sys :=
  (ERR_NONE, deselect { s with sd_mounted := false })

/- Phase 2 of sd_mount: FAT volume mount, then file locate/create;
success sets sd_mounted. -/
def mount_volume (s : Sys) : Nat × Sys :=
  match fat32_read_bpb s with
  | (false, s1) => (ERR_FAT_VOLUME_FAILED, s1)
  | (true, s1) =>
    match fat32_find_or_create_file s1 with
    | (false, s2) => (ERR_FILE_OPEN_FAILED, s2)
    | (true, s2) => (ERR_NONE, { s2 with sd_mounted := true })

/- Tail of sd_mount after voltage negotiation: the CMD16 block-length fix
for non-SDHC cards, restore of the saved frequency, then phase 2. -/
def mount_finish (s : Sys) (saved : Nat) : Nat × Sys :=
  if s.card_type ≠ CT_SDHC then
    let p := sd_cmd s 16 512
    let s1 := deselect p.2
    if p.1 ≠ 0 then (ERR_SD_INIT_FAILED, { s1 with current_spi_freq := saved })
    else mount_volume { s1 with current_spi_freq := saved, sd_initialized := true }
  else mount_volume { s with current_spi_freq := saved, sd_initialized := true }

/- Body of sd_mount once the requested frequency has been applied and any
previous mount undone; `saved` is the frequency every exit restores after
the identification ran at 400 kHz.  The SPI warmup is the deselect plus ten
dummy transfers; then CMD0 (idle reset), CMD8 (version probe) with its two
branches, ACMD41 (voltage negotiation), CMD58 (capacity probe, v2 only),
and mount_finish. -/
def sd_mount_body (sB : Sys) (saved : Nat) : Nat × Sys :=
  let sC := { sB with current_spi_freq := 400000 }
  let sD := { deselect sC with auxPos := (deselect sC).auxPos + 10 }
  let p0 := cmd0_loop sD 99
  if p0.1 ≠ 1 then
    (ERR_SD_INIT_FAILED, { deselect p0.2 with current_spi_freq := saved })
  else
    let p8 := sd_cmd p0.2 8 0x1AA
    if p8.1 = 1 then
      let o0 := aux_read p8.2
      let o1 := aux_read o0.2
      let o2 := aux_read o1.2
      let o3 := aux_read o2.2
      let sE := deselect o3.2
      if o2.1 ≠ 0x01 ∨ o3.1 ≠ 0xAA then
        (ERR_SD_CARD_TYPE_UNKNOWN, { sE with current_spi_freq := saved })
      else
        let pa := acmd41_loop 0x40000000 999 sE
        if pa.1 ≠ 0 then
          (ERR_SD_INIT_FAILED, { deselect pa.2 with current_spi_freq := saved })
        else
          let p58 := sd_cmd pa.2 58 0
          let sF :=
            if p58.1 = 0 then
              let q0 := aux_read p58.2
              let q1 := aux_read q0.2
              let q2 := aux_read q1.2
              let q3 := aux_read q2.2
              { q3.2 with card_type := if q0.1 / 64 % 2 = 1 then CT_SDHC else CT_SD2 }
            else p58.2
          mount_finish (deselect sF) saved
    else if p8.1 / 4 % 2 = 1 then
      let sG := deselect p8.2
      let pa := acmd41_loop 0 999 sG
      if pa.1 ≠ 0 then
        (ERR_SD_INIT_FAILED, { pa.2 with current_spi_freq := saved })
      else mount_finish { pa.2 with card_type := CT_SD1 } saved
    else
      (ERR_SD_INIT_FAILED, { deselect p8.2 with current_spi_freq := saved })

/- sd_mount(freq_hz): a nonzero request sets the operating frequency, a
mounted session is first unmounted, and the body runs with the resulting
frequency as the one to restore. -/
def sd_mount (s0 : Sys) (freq_hz : Nat) : Nat × Sys :=
  let f := u32 freq_hz
  let sA := if 0 < f then { s0 with current_spi_freq := f } else s0
  let sB := if sA.sd_mounted then (sd_unmount sA).2 else sA
  sd_mount_body sB sB.current_spi_freq

/- ============================================================ -/
/- Append writer and health check (lines 598-690).              -/
/- ============================================================ -/

/- cycle_result_t of include/config.h. -/
structure CycleResult where
  success : Bool
  error_code : Nat
  init_time_us : Nat
  write_time_us : Nat
  spi_freq_used : Nat

/- CSV_HEADER of include/config.h. -/
def CSV_HEADER : String :=
  "timestamp_ms,cycle,status,error_code,init_time_us,write_time_us,spi_freq_hz,vbat_mv,free_heap\n"

/- The text the two snprintf calls of sd_write_csv_line produce: the header
when it has not yet been written, then the data row.  %lu renders a uint32
in decimal; error_code is a small nonnegative enum value, so its %d also
renders in plain decimal.  The vbat and free-heap readings are environment
inputs. -/
def format_csv_line (headerWritten : Bool) (cycle : Nat) (r : CycleResult)
    (timestamp_ms vbat_mv free_heap : Nat) : String :=
  (if headerWritten then "" else CSV_HEADER) ++
  Nat.repr (u32 timestamp_ms) ++ "," ++
  Nat.repr (u32 cycle) ++ "," ++
  (if r.success then "OK" else "FAIL") ++ "," ++
  Nat.repr (u32 r.error_code) ++ "," ++
  Nat.repr (u32 r.init_time_us) ++ "," ++
  Nat.repr (u32 r.write_time_us) ++ "," ++
  Nat.repr (u32 r.spi_freq_used) ++ "," ++
  Nat.repr (u32 vbat_mv) ++ "," ++
  Nat.repr (u32 free_heap) ++ "\n"

/- Copy-and-flush loop of sd_write_csv_line (lines 650-673): bytes is the
formatted line, len its length, bw counts bytes already copied.  Each pass
copies min(len - bw, space left in the sector) bytes into the buffer at the
cursor offset (uint16 arithmetic for the space and the offset); when the
buffer holds 512 bytes or the input is exhausted it flushes, and a full
sector advances the cursor to offset 0 of the next sector with a zeroed
buffer.  The fuel argument only bounds the recursion; the caller passes
len + 2, which the loop never exhausts, since every pass either copies a
byte or resets a full sector to offset 0 and the next pass copies. -/
def csv_write_loop (bytes : List Nat) (len : Nat) : Nat → Nat → Sys → Nat × Sys
  | bw, 0, s => if bw < len then (ERR_UNKNOWN, s) else (ERR_NONE, s)
  | bw, fuel + 1, s =>
    if bw < len then
      let off := s.csv_byte_offset
      let space := (512 + 65536 - off) % 65536
      let tw := if len - bw < space then len - bw else space
      let copied : Nat → Nat := fun j =>
        if off ≤ j ∧ j < off + tw then bytes.getD (bw + (j - off)) 0 % 256
        else s.buf j
      let s1 := { s with buf := copied, csv_byte_offset := u16 (off + tw) }
      let bw1 := bw + tw
      if 512 ≤ s1.csv_byte_offset ∨ len ≤ bw1 then
        match sd_write_sector s1 s1.csv_next_sector with
        | (false, s2) => (ERR_FILE_WRITE_FAILED, s2)
        | (true, s2) =>
          let s3 :=
            if 512 ≤ s2.csv_byte_offset then
              { s2 with csv_next_sector := u32 (s2.csv_next_sector + 1),
                        csv_byte_offset := 0, buf := fun _ => 0 }
            else s2
          csv_write_loop bytes len bw1 fuel s3
      else csv_write_loop bytes len bw1 fuel s1
    else (ERR_NONE, s)

/- sd_write_csv_line(cycle, result, timestamp_ms): refuse when not mounted;
format the line (marking the header written); refuse with a buffer overflow
when the formatted length reaches CSV_LINE_MAX_SIZE = 128; read the current
sector when the cursor offset is nonzero, else zero-fill the buffer; then
run the copy-and-flush loop. -/
def sd_write_csv_line (s : Sys) (cycle : Nat) (r : CycleResult)
    (timestamp_ms vbat_mv free_heap : Nat) : Nat × Sys :=
  if ¬s.sd_mounted then (ERR_SD_MOUNT_FAILED, s)
  else
    let line := format_csv_line s.header_written cycle r timestamp_ms vbat_mv free_heap
    let s1 := { s with header_written := true }
    let len := line.length
    if 128 ≤ len then (ERR_BUFFER_OVERFLOW, s1)
    else
      let pre : Bool × Sys :=
        if 0 < s1.csv_byte_offset then sd_read_sector s1 s1.csv_next_sector
        else (true, { s1 with buf := fun _ => 0 })
      match pre with
      | (false, s2) => (ERR_FILE_WRITE_FAILED, s2)
      | (true, s2) =>
          csv_write_loop (line.data.map Char.toNat) len 0 (len + 2) s2

/- sd_health_check: refuse when not mounted; otherwise read sector 0 and
succeed exactly when the read does. -/
def sd_health_check (s : Sys) : Nat × Sys :=
  if ¬s.sd_mounted then (ERR_SD_MOUNT_FAILED, s)
  else
    match sd_read_sector s 0 with
    | (false, s1) => (ERR_SD_INIT_FAILED, s1)
    | (true, s1) => (ERR_NONE, s1)

/- ============================================================ -/
/- Concrete worlds used by counterexamples and witnesses.       -/
/- ============================================================ -/

/- A bus whose card answers the ready wait with 0xFF and then every
response poll with 0x80. -/
def timeoutBus : Bus :=
  { stream := fun n => if n < 8 then 0xFF else 0x80, pos := 0, sent := [] }

/- A bus that always reads 0xFF, the idle level of MISO. -/
def idleBus : Bus := { stream := fun _ => 0xFF, pos := 0, sent := [] }


/- Sector 0 of a small freshly formatted test card: a FAT32 boot sector
with 512 bytes per sector, 1 sector per cluster, 1 reserved sector, 1 FAT
of 1 sector, root cluster 2, and the 0x55AA trailer.  The derived geometry
is fat_start_sector = 1 and data_start_sector = 2. -/
def bootSector : Nat → Nat := fun i =>
  if i = 0x0B then 0 else if i = 0x0C then 2
  else if i = 0x0D then 1
  else if i = 0x0E then 1
  else if i = 0x10 then 1
  else if i = 0x24 then 1
  else if i = 0x2C then 2
  else if i = 510 then 0x55 else if i = 511 then 0xAA
  else 0

/- The test card's root-directory sector (sector 2): entry 0 is
"SD_TEST CSV" with start cluster 3 and file size 0. -/
def dirSector : Nat → Nat := fun i =>
  if i < 11 then nameBytes.getD i 0
  else if i = 0x1A then 3
  else 0

/- The test card: boot sector at 0, directory at sector 2, zeros elsewhere
(sector 1 is the FAT). -/
def testCard : Nat → Nat → Nat := fun sec =>
  if sec = 0 then bootSector else if sec = 2 then dirSector else fun _ => 0

/- Command-response oracle driving each mount down the SD v1 path: CMD0
answers 0x01 (idle), CMD8 answers 0x04 (illegal command), ACMD41 answers 0,
CMD16 answers 0; a mount issues exactly these four commands, so the period
of four serves any number of consecutive mounts. -/
def v1Responses : Nat → Nat := fun n =>
  if n % 4 = 0 then 1 else if n % 4 = 1 then 4 else 0

/- The base test state: statics as after sd_controller_init (card type
None, 4 MHz configured, nothing mounted), the test card, every sector I/O
succeeding, and the v1 mount responses. -/
def baseSys : Sys :=
  { sd_initialized := false, sd_mounted := false, card_type := CT_NONE,
    current_spi_freq := 4000000, header_written := false,
    csv_next_sector := 0, csv_byte_offset := 0,
    bytes_per_sector := 512, sectors_per_cluster := 1, reserved_sectors := 0,
    num_fats := 2, sectors_per_fat := 0, root_cluster := 2,
    fat_start_sector := 0, data_start_sector := 0, total_sectors := 0,
    buf := fun _ => 0, card := testCard, ioOk := fun _ => true, ioCount := 0,
    readLog := [], writeLog := [],
    cmdResp := v1Responses, cmdCount := 0, aux := fun _ => 0xFF, auxPos := 0 }

/- A cycle result with small fields; its data row
"1,1,OK,0,1,1,1,1,1\n" is 19 bytes long. -/
def smallResult : CycleResult :=
  { success := true, error_code := 0, init_time_us := 1,
    write_time_us := 1, spi_freq_used := 1 }

/- A cycle result with ten-digit fields, used to overflow the line buffer
together with the header. -/
def hugeResult : CycleResult :=
  { success := true, error_code := 0, init_time_us := 4294967295,
    write_time_us := 4294967295, spi_freq_used := 4294967295 }

/- The state after mounting the test card: the directory scan finds the
entry, so the cursor is (sector 3, offset 0) and the header is marked
written. -/
def mountedSys : Sys := (sd_mount baseSys 0).2

/- The remount scenario of claim C1: write one 19-byte row on the mounted
test card, unmount, mount again. -/
def c1_written : Nat × Sys := sd_write_csv_line mountedSys 1 smallResult 1 1 1

def c1_remounted : Nat × Sys := sd_mount (sd_unmount c1_written.2).2 0

/- Oracle for the C2 counterexample: CMD0 answers idle, CMD8 answers
illegal command (v1 path), ACMD41 answers 0, and CMD16 then fails with a
nonzero response. -/
def c2Responses : Nat → Nat := fun n =>
  if n = 0 then 1 else if n = 1 then 4 else if n = 2 then 0 else 1

def c2Sys : Sys := { baseSys with cmdResp := c2Responses }

/- Mounted state sitting 19 bytes before a sector boundary (offset 493 of
sector 3), for the exact-fill case of claim C6. -/
def fillSys : Sys :=
  { mountedSys with csv_byte_offset := 493, csv_next_sector := 3 }

/- Mounted state at offset 500 of sector 3, so a 19-byte row spans the
sector boundary. -/
def spanSys : Sys :=
  { mountedSys with csv_byte_offset := 500, csv_next_sector := 3 }

/- Same position as fillSys but the flush is doomed: the first sector I/O
(the read-back) succeeds and the second (the flush) fails.  Used by the C10
counterexample. -/
def flushFailSys : Sys :=
  { mountedSys with csv_byte_offset := 493, csv_next_sector := 3,
                    ioOk := fun n => n = 2, ioCount := 2 }

/- ============================================================ -/
/- Theorems.                                                    -/
/- ============================================================ -/

/- Basic facts about the byte-level primitives. -/

theorem spi_transfer_stream (b : Bus) (d : Nat) :
    ((spi_transfer b d).2).stream = b.stream := rfl

theorem spi_transfer_pos (b : Bus) (d : Nat) :
    ((spi_transfer b d).2).pos = b.pos + 1 := rfl

theorem spi_transfer_sent (b : Bus) (d : Nat) :
    ((spi_transfer b d).2).sent = b.sent ++ [d % 256] := rfl

/- The response poll returns the byte read at its final position, advances
the position by at least one and at most fuel + 1 bytes, and leaves the
stream unchanged. -/
theorem poll_r1_spec (fuel : Nat) : ∀ b : Bus,
    (poll_r1 fuel b).2.stream = b.stream ∧
    b.pos < (poll_r1 fuel b).2.pos ∧
    (poll_r1 fuel b).2.pos ≤ b.pos + fuel + 1 ∧
    (poll_r1 fuel b).1 = b.stream ((poll_r1 fuel b).2.pos - 1) % 256 := by
  induction fuel with
  | zero =>
      intro b
      refine ⟨rfl, Nat.lt_succ_self _, Nat.le_refl _, ?_⟩
      simp [poll_r1, spi_transfer]
  | succ f ih =>
      intro b
      by_cases h : 128 ≤ (spi_transfer b 0xFF).1
      · have hrec := ih (spi_transfer b 0xFF).2
        have hp : poll_r1 (f + 1) b = poll_r1 f (spi_transfer b 0xFF).2 := by
          simp [poll_r1, h]
        refine ⟨?_, ?_, ?_, ?_⟩
        · rw [hp]; exact hrec.1.trans (spi_transfer_stream b 0xFF)
        · rw [hp]
          exact Nat.lt_trans (Nat.lt_succ_self b.pos) hrec.2.1
        · rw [hp]
          have := hrec.2.2.1
          simpa [spi_transfer, Nat.add_assoc, Nat.add_comm, Nat.add_left_comm] using this
        · rw [hp]
          rw [hrec.2.2.2, spi_transfer_stream]
      · have hp : poll_r1 (f + 1) b = spi_transfer b 0xFF := by
          simp [poll_r1, h]
        rw [hp]
        refine ⟨rfl, Nat.lt_succ_self _, by simp [spi_transfer], ?_⟩
        simp [spi_transfer]

/- A successful busy wait only shifts out 0xFF bytes: its sent log grows by
k + 1 copies of 0xFF for some k ≤ fuel. -/
theorem wait_ready_sent (fuel : Nat) : ∀ b : Bus, (wait_ready fuel b).1 = true →
    ∃ k ≤ fuel, (wait_ready fuel b).2.sent = b.sent ++ List.replicate (k + 1) 0xFF := by
  induction fuel with
  | zero =>
      intro b _
      exact ⟨0, Nat.le_refl 0, by simp [wait_ready, spi_transfer]⟩
  | succ f ih =>
      intro b h
      by_cases hr : b.stream b.pos % 256 = 255
      · refine ⟨0, Nat.zero_le _, ?_⟩
        simp [wait_ready, spi_transfer, hr]
      · have hw : wait_ready (f + 1) b = wait_ready f (spi_transfer b 0xFF).2 := by
          simp [wait_ready, spi_transfer, hr]
        rw [hw] at h ⊢
        obtain ⟨k, hk, hs⟩ := ih (spi_transfer b 0xFF).2 h
        refine ⟨k + 1, Nat.succ_le_succ hk, ?_⟩
        rw [hs, spi_transfer_sent]
        simp [List.replicate_succ]

/- The busy wait leaves the input stream unchanged. -/
theorem wait_ready_stream (fuel : Nat) : ∀ b : Bus,
    (wait_ready fuel b).2.stream = b.stream := by
  induction fuel with
  | zero => intro b; rfl
  | succ f ih =>
      intro b
      by_cases hr : b.stream b.pos % 256 = 255
      · simp [wait_ready, spi_transfer, hr]
      · have hw : wait_ready (f + 1) b = wait_ready f (spi_transfer b 0xFF).2 := by
          simp [wait_ready, spi_transfer, hr]
        rw [hw, ih, spi_transfer_stream]

/- The command frame leaves the input stream unchanged. -/
theorem send_frame_stream (b : Bus) (cmd arg : Nat) :
    (send_frame b cmd arg).stream = b.stream := rfl

/- The bytes the command frame puts on MOSI, in order: 0x40|cmd, the four
big-endian argument bytes, then the CRC literal. -/
theorem send_frame_sent (b : Bus) (cmd arg : Nat) :
    (send_frame b cmd arg).sent =
      b.sent ++ [(0x40 ||| cmd) % 256, arg / 16777216 % 256, arg / 65536 % 256,
                 arg / 256 % 256, arg % 256,
                 (if cmd = 0 then 0x95 else if cmd = 8 then 0x87 else 0xFF) % 256] := by
  simp [send_frame, spi_transfer]

/- The response poll only shifts out 0xFF bytes. -/
theorem poll_r1_sent (fuel : Nat) : ∀ b : Bus,
    ∃ m, (poll_r1 fuel b).2.sent = b.sent ++ List.replicate (m + 1) 0xFF := by
  induction fuel with
  | zero => intro b; exact ⟨0, by simp [poll_r1, spi_transfer]⟩
  | succ f ih =>
      intro b
      by_cases h : 128 ≤ (spi_transfer b 0xFF).1
      · have hp : poll_r1 (f + 1) b = poll_r1 f (spi_transfer b 0xFF).2 := by
          simp [poll_r1, h]
        obtain ⟨m, hm⟩ := ih (spi_transfer b 0xFF).2
        refine ⟨m + 1, ?_⟩
        rw [hp, hm, spi_transfer_sent]
        simp [List.replicate_succ]
      · have hp : poll_r1 (f + 1) b = spi_transfer b 0xFF := by
          simp [poll_r1, h]
        exact ⟨0, by rw [hp, spi_transfer_sent]; simp⟩

/-- C4 (amended): in sd_send_cmd, once the bus-ready wait has succeeded and
the command frame is sent, at most 10 response bytes are polled; the value
returned is always the last byte polled from the stream, so on a link
timeout (all ten polled bytes carry the high bit) the function returns that
final high-bit byte, which is 0xFF only when the bus idles at 0xFF. -/
theorem c4_amended_poll (b : Bus) (cmd arg : Nat)
    (h : (wait_ready 200 (spi_deselect b)).1 = true) :
    sd_send_cmd_frame b cmd arg =
      poll_r1 9 (send_frame (wait_ready 200 (spi_deselect b)).2 cmd arg) ∧
    (sd_send_cmd_frame b cmd arg).2.pos ≤
      (send_frame (wait_ready 200 (spi_deselect b)).2 cmd arg).pos + 10 ∧
    (sd_send_cmd_frame b cmd arg).1 =
      b.stream ((sd_send_cmd_frame b cmd arg).2.pos - 1) % 256 := by
  have heq : sd_send_cmd_frame b cmd arg =
      poll_r1 9 (send_frame (wait_ready 200 (spi_deselect b)).2 cmd arg) := by
    simp [sd_send_cmd_frame, h]
  have hspec := poll_r1_spec 9 (send_frame (wait_ready 200 (spi_deselect b)).2 cmd arg)
  have hstr : (send_frame (wait_ready 200 (spi_deselect b)).2 cmd arg).stream
      = b.stream := by
    rw [send_frame_stream, wait_ready_stream]
    rfl
  refine ⟨heq, ?_, ?_⟩
  · rw [heq]; exact hspec.2.2.1
  · rw [heq, hspec.2.2.2, hstr]

/-- C4 counterexample: on timeoutBus every one of the 10 polled response
bytes is 0x80 (high bit set), yet sd_send_cmd returns 0x80, not 0xFF: on
link timeout the code returns the last polled byte, whatever it is. -/
theorem c4_counterexample :
    (∀ i < 18, 8 ≤ i → 128 ≤ timeoutBus.stream i % 256) ∧
    (sd_send_cmd timeoutBus 17 0).1 = 0x80 ∧
    (sd_send_cmd timeoutBus 17 0).1 ≠ 0xFF := by
  decide

/-- C4 witness: the amended poll theorem applied on the idle bus to CMD17. -/
theorem c4_amended_poll_witness :
    (wait_ready 200 (spi_deselect idleBus)).1 = true ∧
    (sd_send_cmd_frame idleBus 17 0).1 =
      idleBus.stream ((sd_send_cmd_frame idleBus 17 0).2.pos - 1) % 256 :=
  ⟨by decide, (c4_amended_poll idleBus 17 0 (by decide)).2.2⟩

/-- C8: whenever the bus-ready wait succeeds, the six-byte frame put on the
wire by sd_send_cmd is 0x40|cmd, the four big-endian argument bytes and a
CRC byte that is exactly 0x95 for CMD0 (in particular CMD0 with argument
0), exactly 0x87 for CMD8 (in particular CMD8 with argument 0x1AA), and
0xFF for every other command. -/
theorem c8_crc_byte (b : Bus) (cmd arg : Nat)
    (h : (wait_ready 200 (spi_deselect b)).1 = true) :
    ∃ k m crc,
      (sd_send_cmd_frame b cmd arg).2.sent =
        b.sent ++ List.replicate (k + 2) 0xFF ++
          [(0x40 ||| cmd) % 256, arg / 16777216 % 256, arg / 65536 % 256,
           arg / 256 % 256, arg % 256, crc] ++
          List.replicate (m + 1) 0xFF ∧
      (cmd = 0 → crc = 0x95) ∧ (cmd = 8 → crc = 0x87) ∧
      (cmd ≠ 0 → cmd ≠ 8 → crc = 0xFF) := by
  have heq : sd_send_cmd_frame b cmd arg =
      poll_r1 9 (send_frame (wait_ready 200 (spi_deselect b)).2 cmd arg) := by
    simp [sd_send_cmd_frame, h]
  obtain ⟨k, _, hks⟩ := wait_ready_sent 200 (spi_deselect b) h
  obtain ⟨m, hms⟩ :=
    poll_r1_sent 9 (send_frame (wait_ready 200 (spi_deselect b)).2 cmd arg)
  refine ⟨k, m, (if cmd = 0 then 0x95 else if cmd = 8 then 0x87 else 0xFF) % 256,
    ?_, ?_, ?_, ?_⟩
  · rw [heq, hms, send_frame_sent, hks]
    have hd : (spi_deselect b).sent = b.sent ++ [255] := rfl
    rw [hd]
    simp [List.replicate_succ, List.append_assoc]
  · intro h0; subst h0; rfl
  · intro h8; subst h8; rfl
  · intro h0 h8; simp [h0, h8]

/-- C8 witness: the frame theorem applied on the idle bus to CMD0, arg 0. -/
theorem c8_crc_byte_witness :
    (wait_ready 200 (spi_deselect idleBus)).1 = true ∧
    (∃ k m crc,
      (sd_send_cmd_frame idleBus 0 0).2.sent =
        idleBus.sent ++ List.replicate (k + 2) 0xFF ++
          [(0x40 ||| 0) % 256, 0 / 16777216 % 256, 0 / 65536 % 256,
           0 / 256 % 256, 0 % 256, crc] ++
          List.replicate (m + 1) 0xFF ∧
      (0 = 0 → crc = 0x95) ∧ ((0 : Nat) = 8 → crc = 0x87) ∧
      ((0 : Nat) ≠ 0 → (0 : Nat) ≠ 8 → crc = 0xFF)) :=
  ⟨by decide, c8_crc_byte idleBus 0 0 (by decide)⟩


/- Sector I/O as explicit records, split on the oracle bit. -/

theorem sd_read_sector_ok (s : Sys) (sector : Nat) (h : s.ioOk s.ioCount = true) :
    sd_read_sector s sector =
      (true, { s with ioCount := s.ioCount + 1, readLog := s.readLog ++ [sector],
                      buf := fun i => s.card sector i % 256 }) := by
  simp [sd_read_sector, h]

theorem sd_read_sector_fail (s : Sys) (sector : Nat) (h : s.ioOk s.ioCount = false) :
    sd_read_sector s sector =
      (false, { s with ioCount := s.ioCount + 1, readLog := s.readLog ++ [sector] }) := by
  simp [sd_read_sector, h]

theorem sd_write_sector_ok (s : Sys) (sector : Nat) (h : s.ioOk s.ioCount = true) :
    sd_write_sector s sector =
      (true, { s with ioCount := s.ioCount + 1, writeLog := s.writeLog ++ [sector],
                      card := fun sec =>
                        if sec = sector then fun i => s.buf i % 256 else s.card sec }) := by
  simp [sd_write_sector, h]

theorem sd_write_sector_fail (s : Sys) (sector : Nat) (h : s.ioOk s.ioCount = false) :
    sd_write_sector s sector =
      (false, { s with ioCount := s.ioCount + 1, writeLog := s.writeLog ++ [sector] }) := by
  simp [sd_write_sector, h]

/-- C9: a writeCsvLine call on an unmounted session returns
ERR_SD_MOUNT_FAILED with the entire state untouched: in particular the
append cursor, the header-written flag and the card contents are unchanged
and no formatting effect or card access takes place. -/
theorem c9_unmounted_write_rejected (s : Sys) (cycle : Nat) (r : CycleResult)
    (ts vb hp : Nat) (h : s.sd_mounted = false) :
    sd_write_csv_line s cycle r ts vb hp = (ERR_SD_MOUNT_FAILED, s) := by
  simp [sd_write_csv_line, h]

/-- C9 witness: the unmounted base state rejects a write unchanged. -/
theorem c9_unmounted_write_rejected_witness :
    baseSys.sd_mounted = false ∧
    sd_write_csv_line baseSys 1 smallResult 1 1 1 = (ERR_SD_MOUNT_FAILED, baseSys) :=
  ⟨rfl, c9_unmounted_write_rejected baseSys 1 smallResult 1 1 1 rfl⟩

/-- C5: when the formatted line (header, when still pending, plus data row)
reaches the CSV_LINE_MAX_SIZE = 128 buffer capacity, writeCsvLine on a
mounted session returns ERR_BUFFER_OVERFLOW having changed nothing but the
header-written flag: no sector read or write is attempted and the append
cursor and the card contents are exactly as before the call. -/
theorem c5_overflow_untouched (s : Sys) (cycle : Nat) (r : CycleResult)
    (ts vb hp : Nat) (hm : s.sd_mounted = true)
    (hlen : 128 ≤ (format_csv_line s.header_written cycle r ts vb hp).length) :
    sd_write_csv_line s cycle r ts vb hp =
      (ERR_BUFFER_OVERFLOW, { s with header_written := true }) := by
  simp [sd_write_csv_line, hm, hlen]

/-- C5 witness: on the mounted test card with the header still pending, the
header plus a row of ten-digit fields is 176 bytes long and is rejected. -/
theorem c5_overflow_untouched_witness :
    ({ mountedSys with header_written := false } : Sys).sd_mounted = true ∧
    128 ≤ (format_csv_line ({ mountedSys with header_written := false } : Sys).header_written
            4294967295 hugeResult 4294967295 4294967295 4294967295).length ∧
    sd_write_csv_line { mountedSys with header_written := false }
        4294967295 hugeResult 4294967295 4294967295 4294967295 =
      (ERR_BUFFER_OVERFLOW,
       { ({ mountedSys with header_written := false } : Sys) with header_written := true }) :=
  ⟨by decide, by decide,
   c5_overflow_untouched { mountedSys with header_written := false }
     4294967295 hugeResult 4294967295 4294967295 4294967295 (by decide) (by decide)⟩

/-- C3 (amended): on a mounted session, healthCheck reads sector 0 and
succeeds exactly when that read succeeds; an unmounted session is instead
rejected with ERR_SD_MOUNT_FAILED before any read, as the counterexample
shows, so the claim's "for every state" must weaken to mounted states. -/
theorem c3_mounted_health_check (s : Sys) (h : s.sd_mounted = true) :
    (sd_health_check s).2.readLog = s.readLog ++ [0] ∧
    ((sd_health_check s).1 = ERR_NONE ↔ s.ioOk s.ioCount = true) := by
  by_cases hio : s.ioOk s.ioCount = true
  · simp [sd_health_check, sd_read_sector_ok s 0 hio, h, hio]
  · have hio2 : s.ioOk s.ioCount = false := by simpa using hio
    simp [sd_health_check, sd_read_sector_fail s 0 hio2, h, hio2,
          ERR_SD_INIT_FAILED, ERR_NONE]

/-- C3 witness: the amended health-check theorem on the mounted test card. -/
theorem c3_mounted_health_check_witness :
    mountedSys.sd_mounted = true ∧
    ((sd_health_check mountedSys).2.readLog = mountedSys.readLog ++ [0] ∧
     ((sd_health_check mountedSys).1 = ERR_NONE ↔
        mountedSys.ioOk mountedSys.ioCount = true)) :=
  ⟨by decide, c3_mounted_health_check mountedSys (by decide)⟩

/-- C3 counterexample: with the session unmounted and every sector read
bound to succeed, healthCheck performs no read at all (its read log stays
empty) and returns ERR_SD_MOUNT_FAILED rather than success, refuting
"for every state of the session, healthCheck reads sector 0 and returns
success iff that read succeeds". -/
theorem c3_counterexample :
    baseSys.sd_mounted = false ∧ (∀ n, baseSys.ioOk n = true) ∧
    (sd_health_check baseSys).2.readLog = [] ∧
    (sd_health_check baseSys).1 ≠ ERR_NONE :=
  ⟨rfl, fun _ => rfl, rfl, by decide⟩

/-- C1: the append cursor is not recovered by a remount.  On the mounted
test card (file found at cluster 3, stored size 0, cursor (3, 0)) one
writeCsvLine succeeds and moves the cursor to (3, 19); writeCsvLine never
writes the grown size back to the directory entry, so after unmount the
directory still stores size 0 and the remount - which does find the entry
again - recovers cursor (3, 0), not the pre-unmount (3, 19). -/
theorem c1_remount_cursor_lost :
    (sd_mount baseSys 0).1 = ERR_NONE ∧
    c1_written.1 = ERR_NONE ∧
    c1_written.2.csv_next_sector = 3 ∧ c1_written.2.csv_byte_offset = 19 ∧
    c1_remounted.1 = ERR_NONE ∧ c1_remounted.2.header_written = true ∧
    c1_remounted.2.csv_next_sector = 3 ∧ c1_remounted.2.csv_byte_offset = 0 ∧
    c1_remounted.2.csv_byte_offset ≠ c1_written.2.csv_byte_offset := by
  decide

/- Preservation lemmas: which fields each operation can touch.  The command
oracle and the retry loops only advance cmdCount; sector I/O and the FAT32
layer never touch current_spi_freq or card_type. -/

theorem cmd0_loop_state (fuel : Nat) : ∀ s : Sys,
    ∃ n, (cmd0_loop s fuel).2 = { s with cmdCount := n } := by
  induction fuel with
  | zero => intro s; exact ⟨s.cmdCount + 1, rfl⟩
  | succ f ih =>
      intro s
      by_cases h : s.cmdResp s.cmdCount % 256 = 1
      · refine ⟨s.cmdCount + 1, ?_⟩
        simp [cmd0_loop, sd_cmd, h]
      · obtain ⟨n, hn⟩ := ih (sd_cmd s 0 0).2
        refine ⟨n, ?_⟩
        have hstep : cmd0_loop s (f + 1) = cmd0_loop (sd_cmd s 0 0).2 f := by
          simp [cmd0_loop, sd_cmd, h]
        rw [hstep]
        exact hn.trans rfl

theorem acmd41_loop_state (arg : Nat) (fuel : Nat) : ∀ s : Sys,
    ∃ n, (acmd41_loop arg fuel s).2 = { s with cmdCount := n } := by
  induction fuel with
  | zero => intro s; exact ⟨s.cmdCount + 1, rfl⟩
  | succ f ih =>
      intro s
      by_cases h : s.cmdResp s.cmdCount % 256 = 0
      · refine ⟨s.cmdCount + 1, ?_⟩
        simp [acmd41_loop, sd_cmd, h]
      · obtain ⟨n, hn⟩ := ih (sd_cmd s (0x80 ||| 0x29) arg).2
        refine ⟨n, ?_⟩
        have hstep : acmd41_loop arg (f + 1) s =
            acmd41_loop arg f (sd_cmd s (0x80 ||| 0x29) arg).2 := by
          simp [acmd41_loop, sd_cmd, h]
        rw [hstep]
        exact hn.trans rfl

theorem sd_read_sector_core (s : Sys) (sector : Nat) :
    (sd_read_sector s sector).2.current_spi_freq = s.current_spi_freq ∧
    (sd_read_sector s sector).2.card_type = s.card_type := by
  by_cases h : s.ioOk s.ioCount = true
  · rw [sd_read_sector_ok s sector h]; exact ⟨rfl, rfl⟩
  · rw [sd_read_sector_fail s sector (by simpa using h)]; exact ⟨rfl, rfl⟩

theorem sd_write_sector_core (s : Sys) (sector : Nat) :
    (sd_write_sector s sector).2.current_spi_freq = s.current_spi_freq ∧
    (sd_write_sector s sector).2.card_type = s.card_type := by
  by_cases h : s.ioOk s.ioCount = true
  · rw [sd_write_sector_ok s sector h]; exact ⟨rfl, rfl⟩
  · rw [sd_write_sector_fail s sector (by simpa using h)]; exact ⟨rfl, rfl⟩

theorem scan_dir_core (s : Sys) : ∀ fuel free i,
    (scan_dir s free i fuel).2.2.current_spi_freq = s.current_spi_freq ∧
    (scan_dir s free i fuel).2.2.card_type = s.card_type := by
  intro fuel
  induction fuel with
  | zero => intro free i; exact ⟨rfl, rfl⟩
  | succ f ih =>
      intro free i
      by_cases h0 : s.buf (i * 32) = 0
      · simp [scan_dir, h0]
      · by_cases h5 : s.buf (i * 32) = 0xE5
        · simpa [scan_dir, h0, h5] using ih (if free = 255 then i else free) (i + 1)
        · by_cases hm : entry_matches s.buf (i * 32) = true
          · simp [scan_dir, h0, h5, hm]
          · simpa [scan_dir, h0, h5, hm] using ih free (i + 1)

theorem fat32_read_bpb_core (s : Sys) :
    (fat32_read_bpb s).2.current_spi_freq = s.current_spi_freq ∧
    (fat32_read_bpb s).2.card_type = s.card_type := by
  by_cases h1 : s.ioOk s.ioCount = true
  · by_cases h2 : s.ioOk (s.ioCount + 1) = true
    · simp only [fat32_read_bpb, sd_read_sector, h1, h2, if_true]
      split_ifs <;> (try simp_all) <;> (try (split <;> simp_all))
    · have h2f : s.ioOk (s.ioCount + 1) = false := by simpa using h2
      simp only [fat32_read_bpb, sd_read_sector, h1, h2f, if_true, Bool.false_eq_true,
        if_false]
      split_ifs <;> (try simp_all) <;> (try (split <;> simp_all))
  · have h1f : s.ioOk s.ioCount = false := by simpa using h1
    simp [fat32_read_bpb, sd_read_sector, h1f]

theorem pair_core_read (t : Sys) (sec : Nat) (ok : Bool) (t2 : Sys)
    (heq : sd_read_sector t sec = (ok, t2)) :
    t2.current_spi_freq = t.current_spi_freq ∧ t2.card_type = t.card_type := by
  have h := sd_read_sector_core t sec
  rw [heq] at h
  exact h

theorem pair_core_write (t : Sys) (sec : Nat) (ok : Bool) (t2 : Sys)
    (heq : sd_write_sector t sec = (ok, t2)) :
    t2.current_spi_freq = t.current_spi_freq ∧ t2.card_type = t.card_type := by
  have h := sd_write_sector_core t sec
  rw [heq] at h
  exact h

theorem fat32_focf_core (s : Sys) :
    (fat32_find_or_create_file s).2.current_spi_freq = s.current_spi_freq ∧
    (fat32_find_or_create_file s).2.card_type = s.card_type := by
  unfold fat32_find_or_create_file
  dsimp only
  split
  next s1 heq => exact pair_core_read _ _ _ _ heq
  next s1 heq =>
    have h1 := pair_core_read _ _ _ _ heq
    split
    next u s2 heq2 =>
      have h2 := scan_dir_core s1 16 255 0
      rw [heq2] at h2
      exact ⟨h2.1.trans h1.1, h2.2.trans h1.2⟩
    next free s2 heq2 =>
      have h2 := scan_dir_core s1 16 255 0
      rw [heq2] at h2
      by_cases hf : free < 16
      · rw [if_pos hf]
        split
        next s4 heq4 =>
          have h4 := pair_core_write _ _ _ _ heq4
          exact ⟨(h4.1.trans h2.1).trans h1.1, (h4.2.trans h2.2).trans h1.2⟩
        next s4 heq4 =>
          have h4 := pair_core_write _ _ _ _ heq4
          split
          next s6 heq6 =>
            have h6 := pair_core_read _ _ _ _ heq6
            exact ⟨((h6.1.trans h4.1).trans h2.1).trans h1.1,
                   ((h6.2.trans h4.2).trans h2.2).trans h1.2⟩
          next s6 heq6 =>
            have h6 := pair_core_read _ _ _ _ heq6
            split
            next s8 heq8 =>
              have h8 := pair_core_write _ _ _ _ heq8
              exact ⟨(((h8.1.trans h6.1).trans h4.1).trans h2.1).trans h1.1,
                     (((h8.2.trans h6.2).trans h4.2).trans h2.2).trans h1.2⟩
            next s8 heq8 =>
              have h8 := pair_core_write _ _ _ _ heq8
              exact ⟨(((h8.1.trans h6.1).trans h4.1).trans h2.1).trans h1.1,
                     (((h8.2.trans h6.2).trans h4.2).trans h2.2).trans h1.2⟩
      · rw [if_neg hf]
        exact ⟨h2.1.trans h1.1, h2.2.trans h1.2⟩

theorem mount_volume_core (s : Sys) :
    (mount_volume s).2.current_spi_freq = s.current_spi_freq ∧
    (mount_volume s).2.card_type = s.card_type ∧
    ((mount_volume s).1 = ERR_NONE ∨ (mount_volume s).1 = ERR_FAT_VOLUME_FAILED ∨
     (mount_volume s).1 = ERR_FILE_OPEN_FAILED) := by
  unfold mount_volume
  split
  next s1 heq =>
    have h := fat32_read_bpb_core s
    rw [heq] at h
    exact ⟨h.1, h.2, Or.inr (Or.inl rfl)⟩
  next s1 heq =>
    have h := fat32_read_bpb_core s
    rw [heq] at h
    split
    next s2 heq2 =>
      have h2 := fat32_focf_core s1
      rw [heq2] at h2
      exact ⟨h2.1.trans h.1, h2.2.trans h.2, Or.inr (Or.inr rfl)⟩
    next s2 heq2 =>
      have h2 := fat32_focf_core s1
      rw [heq2] at h2
      exact ⟨h2.1.trans h.1, h2.2.trans h.2, Or.inl rfl⟩

theorem mount_finish_spec (s : Sys) (saved : Nat) :
    (mount_finish s saved).2.current_spi_freq = saved ∧
    ((mount_finish s saved).1 = ERR_SD_INIT_FAILED →
       s.card_type ≠ CT_SDHC ∧ (mount_finish s saved).2.card_type = s.card_type) ∧
    (mount_finish s saved).1 ≠ ERR_SD_CARD_TYPE_UNKNOWN := by
  unfold mount_finish
  split
  next hct =>
    dsimp only
    split
    next hr =>
      exact ⟨rfl, fun _ => ⟨hct, rfl⟩,
             fun habs => absurd habs (by decide : ¬(ERR_SD_INIT_FAILED = ERR_SD_CARD_TYPE_UNKNOWN))⟩
    next hr =>
      have h := mount_volume_core
        { deselect (sd_cmd s 16 512).2 with current_spi_freq := saved, sd_initialized := true }
      refine ⟨h.1, ?_, ?_⟩
      · intro habs
        rcases h.2.2 with h0 | h0 | h0 <;> rw [habs] at h0 <;> exact absurd h0 (by decide)
      · intro habs
        rcases h.2.2 with h0 | h0 | h0 <;> rw [habs] at h0 <;> exact absurd h0 (by decide)
  next hct =>
    have h := mount_volume_core { s with current_spi_freq := saved, sd_initialized := true }
    refine ⟨h.1, ?_, ?_⟩
    · intro habs
      rcases h.2.2 with h0 | h0 | h0 <;> rw [habs] at h0 <;> exact absurd h0 (by decide)
    · intro habs
      rcases h.2.2 with h0 | h0 | h0 <;> rw [habs] at h0 <;> exact absurd h0 (by decide)

theorem cmd0_loop_ct (fuel : Nat) (s : Sys) :
    (cmd0_loop s fuel).2.card_type = s.card_type := by
  obtain ⟨n, hn⟩ := cmd0_loop_state fuel s
  rw [hn]

theorem acmd41_loop_ct (arg fuel : Nat) (s : Sys) :
    (acmd41_loop arg fuel s).2.card_type = s.card_type := by
  obtain ⟨n, hn⟩ := acmd41_loop_state arg fuel s
  rw [hn]

/- Every exit of the mount body restores the saved frequency. -/
theorem sd_mount_body_freq (sB : Sys) (saved : Nat) :
    (sd_mount_body sB saved).2.current_spi_freq = saved := by
  unfold sd_mount_body
  try dsimp only
  split
  · rfl
  · try dsimp only
    split
    · try dsimp only
      split
      · rfl
      · try dsimp only
        split
        · rfl
        · exact (mount_finish_spec _ _).1
    · try dsimp only
      split
      · try dsimp only
        split
        · rfl
        · exact (mount_finish_spec _ _).1
      · rfl

/- Card-type behaviour of the mount body from a None start: an
ERR_SD_CARD_TYPE_UNKNOWN exit leaves it None, and an ERR_SD_INIT_FAILED
exit leaves it None, SD1 or SD2 (SD1/SD2 exactly when the block-length fix
failed after the type had already been assigned). -/
theorem sd_mount_body_ct (sB : Sys) (saved : Nat) (h0 : sB.card_type = CT_NONE) :
    ((sd_mount_body sB saved).1 = ERR_SD_CARD_TYPE_UNKNOWN →
       (sd_mount_body sB saved).2.card_type = CT_NONE) ∧
    ((sd_mount_body sB saved).1 = ERR_SD_INIT_FAILED →
       ((sd_mount_body sB saved).2.card_type = CT_NONE ∨
        (sd_mount_body sB saved).2.card_type = CT_SD1 ∨
        (sd_mount_body sB saved).2.card_type = CT_SD2)) := by
  unfold sd_mount_body
  try dsimp only
  split
  · -- CMD0 failed
    try dsimp only [deselect]
    refine ⟨fun habs => absurd habs (by decide), fun _ => Or.inl ?_⟩
    rw [cmd0_loop_ct]
    exact h0
  · try dsimp only
    split
    · -- v2 path
      try dsimp only
      split
      · -- OCR echo mismatch
        try dsimp only [deselect, aux_read, sd_cmd]
        refine ⟨fun _ => ?_, fun habs => absurd habs (by decide)⟩
        rw [cmd0_loop_ct]
        exact h0
      · try dsimp only
        split
        · -- ACMD41 failed
          try dsimp only [deselect, aux_read, sd_cmd]
          refine ⟨fun habs => absurd habs (by decide), fun _ => Or.inl ?_⟩
          rw [acmd41_loop_ct]
          try dsimp only [deselect, aux_read, sd_cmd]
          rw [cmd0_loop_ct]
          exact h0
        · -- capacity probe, then mount_finish
          refine ⟨fun habs => absurd habs (mount_finish_spec _ _).2.2, fun habs => ?_⟩
          obtain ⟨hne, hct⟩ := (mount_finish_spec _ _).2.1 habs
          rw [hct]
          revert hne
          try dsimp only
          split
          · -- CMD58 answered 0: the type became SDHC or SD2
            try dsimp only [deselect, aux_read, sd_cmd]
            split
            · intro hne
              exact absurd rfl hne
            · intro _
              exact Or.inr (Or.inr rfl)
          · -- CMD58 nonzero: type untouched
            intro _
            try dsimp only [deselect, aux_read, sd_cmd]
            rw [acmd41_loop_ct]
            try dsimp only [deselect, aux_read, sd_cmd]
            rw [cmd0_loop_ct]
            exact Or.inl h0
    · try dsimp only
      split
      · -- v1 path
        try dsimp only
        split
        · -- ACMD41 failed
          try dsimp only [deselect, aux_read, sd_cmd]
          refine ⟨fun habs => absurd habs (by decide), fun _ => Or.inl ?_⟩
          rw [acmd41_loop_ct]
          try dsimp only [deselect, aux_read, sd_cmd]
          rw [cmd0_loop_ct]
          exact h0
        · -- card typed SD1, then mount_finish
          refine ⟨fun habs => absurd habs (mount_finish_spec _ _).2.2, fun habs => ?_⟩
          obtain ⟨hne, hct⟩ := (mount_finish_spec _ _).2.1 habs
          rw [hct]
          exact Or.inr (Or.inl rfl)
      · -- CMD8 response neither idle nor illegal
        try dsimp only [deselect, aux_read, sd_cmd]
        refine ⟨fun habs => absurd habs (by decide), fun _ => Or.inl ?_⟩
        rw [cmd0_loop_ct]
        exact h0

/-- C7: whatever the mount outcome - an abort at the idle reset, version
probe, voltage negotiation, capacity probe, block-length fix, volume mount
or file locate, or success - the SPI frequency observed after sd_mount
returns is the caller's requested frequency (as a uint32), or the
previously configured frequency when the request is 0, even though the
identification phase ran at 400 kHz. -/
theorem c7_freq_restored (s : Sys) (freq_hz : Nat) :
    (sd_mount s freq_hz).2.current_spi_freq =
      if 0 < u32 freq_hz then u32 freq_hz else s.current_spi_freq := by
  unfold sd_mount
  try dsimp only
  rw [sd_mount_body_freq]
  by_cases h : 0 < u32 freq_hz
  · rw [if_pos h, if_pos h]
    split <;> rfl
  · rw [if_neg h, if_neg h]
    split <;> rfl

/-- C2 (amended): starting with cardType = None, a mount failing the idle
reset, the version probe or the voltage negotiation returns with cardType
still None, and a mount returning ERR_SD_CARD_TYPE_UNKNOWN leaves it None;
but cardType is assigned before the block-length fix (the code needs it to
decide whether to send CMD16), so a mount returning ERR_SD_INIT_FAILED may
already carry cardType SD1 or SD2 - the original claim's "never set on an
identification error" fails exactly there, as the counterexample shows. -/
theorem c2_amended_card_type (s : Sys) (freq_hz : Nat) (h0 : s.card_type = CT_NONE) :
    ((sd_mount s freq_hz).1 = ERR_SD_CARD_TYPE_UNKNOWN →
       (sd_mount s freq_hz).2.card_type = CT_NONE) ∧
    ((sd_mount s freq_hz).1 = ERR_SD_INIT_FAILED →
       ((sd_mount s freq_hz).2.card_type = CT_NONE ∨
        (sd_mount s freq_hz).2.card_type = CT_SD1 ∨
        (sd_mount s freq_hz).2.card_type = CT_SD2)) := by
  unfold sd_mount
  try dsimp only
  apply sd_mount_body_ct
  split
  · try dsimp only [sd_unmount, deselect]
    split <;> exact h0
  · split <;> exact h0

/-- C2 counterexample: a v1 card that accepts CMD0, fails CMD8 as illegal,
accepts ACMD41, and then rejects CMD16: this mount returns
ERR_SD_INIT_FAILED from the block-length fix - an identification error -
yet cardType was already set to SD1 during that very mount, refuting
"cardType is assigned a non-None value only after the full identification
sequence (including the block-length fix) has succeeded". -/
theorem c2_counterexample :
    c2Sys.card_type = CT_NONE ∧
    (sd_mount c2Sys 0).1 = ERR_SD_INIT_FAILED ∧
    (sd_mount c2Sys 0).2.card_type = CT_SD1 := by
  decide

/-- C2 witness: the amended theorem applied to the counterexample state. -/
theorem c2_amended_card_type_witness :
    c2Sys.card_type = CT_NONE ∧
    (((sd_mount c2Sys 0).1 = ERR_SD_CARD_TYPE_UNKNOWN →
        (sd_mount c2Sys 0).2.card_type = CT_NONE) ∧
     ((sd_mount c2Sys 0).1 = ERR_SD_INIT_FAILED →
        ((sd_mount c2Sys 0).2.card_type = CT_NONE ∨
         (sd_mount c2Sys 0).2.card_type = CT_SD1 ∨
         (sd_mount c2Sys 0).2.card_type = CT_SD2))) :=
  ⟨rfl, c2_amended_card_type c2Sys 0 rfl⟩

/- Copy-loop facts for the boundary claims. -/

theorem csv_write_loop_done (bytes : List Nat) (len bw fuel : Nat) (s : Sys)
    (h : ¬bw < len) :
    csv_write_loop bytes len bw fuel s = (ERR_NONE, s) := by
  cases fuel <;> simp [csv_write_loop, h]

theorem csv_write_loop_final (bytes : List Nat) (len bw fuel : Nat) (s : Sys)
    (h1 : bw < len) (h2 : s.csv_byte_offset + (len - bw) < 512) :
    (s.ioOk s.ioCount = true →
       (csv_write_loop bytes len bw (fuel + 1) s).1 = ERR_NONE ∧
       (csv_write_loop bytes len bw (fuel + 1) s).2.writeLog =
         s.writeLog ++ [s.csv_next_sector] ∧
       (csv_write_loop bytes len bw (fuel + 1) s).2.csv_next_sector =
         s.csv_next_sector ∧
       (csv_write_loop bytes len bw (fuel + 1) s).2.csv_byte_offset =
         s.csv_byte_offset + (len - bw)) ∧
    (s.ioOk s.ioCount = false →
       (csv_write_loop bytes len bw (fuel + 1) s).1 = ERR_FILE_WRITE_FAILED ∧
       (csv_write_loop bytes len bw (fuel + 1) s).2.csv_byte_offset =
         s.csv_byte_offset + (len - bw)) := by
  have hspace : (512 + 65536 - s.csv_byte_offset) % 65536 = 512 - s.csv_byte_offset := by
    omega
  have htw : len - bw < 512 - s.csv_byte_offset := by omega
  have hu16 : u16 (s.csv_byte_offset + (len - bw)) = s.csv_byte_offset + (len - bw) := by
    unfold u16; omega
  have hnfull : ¬512 ≤ s.csv_byte_offset + (len - bw) := by omega
  have hbw1 : len ≤ bw + (len - bw) := by omega
  constructor
  · intro hio
    simp only [csv_write_loop, h1, if_true, hspace, htw, hu16, hnfull, hbw1,
      sd_write_sector, hio, if_false, or_true]
    rw [csv_write_loop_done bytes len (bw + (len - bw)) fuel _ (by omega)]
    exact ⟨rfl, rfl, rfl, rfl⟩
  · intro hio
    simp only [csv_write_loop, h1, if_true, hspace, htw, hu16, hnfull, hbw1,
      sd_write_sector, hio, if_false, or_true]
    simp [hio]

theorem csv_write_loop_exact (bytes : List Nat) (len bw fuel : Nat) (s : Sys)
    (h1 : bw < len) (h2 : s.csv_byte_offset + (len - bw) = 512) :
    (s.ioOk s.ioCount = true →
       (csv_write_loop bytes len bw (fuel + 1) s).1 = ERR_NONE ∧
       (csv_write_loop bytes len bw (fuel + 1) s).2.writeLog =
         s.writeLog ++ [s.csv_next_sector] ∧
       (csv_write_loop bytes len bw (fuel + 1) s).2.csv_next_sector =
         u32 (s.csv_next_sector + 1) ∧
       (csv_write_loop bytes len bw (fuel + 1) s).2.csv_byte_offset = 0) ∧
    (s.ioOk s.ioCount = false →
       (csv_write_loop bytes len bw (fuel + 1) s).1 = ERR_FILE_WRITE_FAILED ∧
       (csv_write_loop bytes len bw (fuel + 1) s).2.csv_byte_offset = 512) := by
  have hspace : (512 + 65536 - s.csv_byte_offset) % 65536 = 512 - s.csv_byte_offset := by
    omega
  have htw : ¬(len - bw < 512 - s.csv_byte_offset) := by omega
  have hu16 : u16 (s.csv_byte_offset + (512 - s.csv_byte_offset)) = 512 := by
    unfold u16; omega
  have hfull : (512 : Nat) ≤ 512 := le_refl 512
  have hbw1 : ¬(bw + (512 - s.csv_byte_offset) < len) := by omega
  constructor
  · intro hio
    simp only [csv_write_loop, h1, if_true, hspace, htw, if_false, hu16, hfull,
      true_or, sd_write_sector, hio]
    rw [csv_write_loop_done bytes len _ fuel _ hbw1]
    exact ⟨rfl, by simp, rfl, rfl⟩
  · intro hio
    simp only [csv_write_loop, h1, if_true, hspace, htw, if_false, hu16, hfull,
      true_or, sd_write_sector, hio]
    simp [hio]

theorem csv_write_loop_span (bytes : List Nat) (len bw fuel : Nat) (s : Sys)
    (h1 : bw < len) (h2 : 512 < s.csv_byte_offset + (len - bw))
    (hoff : s.csv_byte_offset < 512) (hsmall : len - bw < 512) :
    (s.ioOk s.ioCount = true → s.ioOk (s.ioCount + 1) = true →
       (csv_write_loop bytes len bw (fuel + 2) s).1 = ERR_NONE ∧
       (csv_write_loop bytes len bw (fuel + 2) s).2.writeLog =
         s.writeLog ++ [s.csv_next_sector, u32 (s.csv_next_sector + 1)] ∧
       (csv_write_loop bytes len bw (fuel + 2) s).2.csv_next_sector =
         u32 (s.csv_next_sector + 1) ∧
       (csv_write_loop bytes len bw (fuel + 2) s).2.csv_byte_offset =
         s.csv_byte_offset + (len - bw) - 512) ∧
    (s.ioOk s.ioCount = false →
       (csv_write_loop bytes len bw (fuel + 2) s).1 = ERR_FILE_WRITE_FAILED) ∧
    (s.ioOk s.ioCount = true → s.ioOk (s.ioCount + 1) = false →
       (csv_write_loop bytes len bw (fuel + 2) s).1 = ERR_FILE_WRITE_FAILED) := by
  have hspace : (512 + 65536 - s.csv_byte_offset) % 65536 = 512 - s.csv_byte_offset := by
    omega
  have htw : ¬(len - bw < 512 - s.csv_byte_offset) := by omega
  have hu16 : u16 (s.csv_byte_offset + (512 - s.csv_byte_offset)) = 512 := by
    unfold u16; omega
  have hfull : (512 : Nat) ≤ 512 := le_refl 512
  have hbw1 : bw + (512 - s.csv_byte_offset) < len := by omega
  refine ⟨?_, ?_, ?_⟩
  · intro hio1 hio2
    simp only [csv_write_loop, h1, if_true, hspace, htw, if_false, hu16, hfull,
      true_or, sd_write_sector, hio1]
    refine ⟨?_, ?_, ?_, ?_⟩
    · exact ((csv_write_loop_final bytes len (bw + (512 - s.csv_byte_offset)) fuel _
        hbw1 (by dsimp only; omega)).1 hio2).1
    · refine (((csv_write_loop_final bytes len (bw + (512 - s.csv_byte_offset)) fuel _
        hbw1 (by dsimp only; omega)).1 hio2).2.1).trans ?_
      dsimp only
      simp
    · refine (((csv_write_loop_final bytes len (bw + (512 - s.csv_byte_offset)) fuel _
        hbw1 (by dsimp only; omega)).1 hio2).2.2.1).trans ?_
      dsimp only
    · refine (((csv_write_loop_final bytes len (bw + (512 - s.csv_byte_offset)) fuel _
        hbw1 (by dsimp only; omega)).1 hio2).2.2.2).trans ?_
      dsimp only
      omega
  · intro hio1
    simp only [csv_write_loop, h1, if_true, hspace, htw, if_false, hu16, hfull,
      true_or, sd_write_sector, hio1]
    simp [hio1]
  · intro hio1 hio2
    simp only [csv_write_loop, h1, if_true, hspace, htw, if_false, hu16, hfull,
      true_or, sd_write_sector, hio1]
    exact ((csv_write_loop_final bytes len (bw + (512 - s.csv_byte_offset)) fuel _
      hbw1 (by dsimp only; omega)).2 (by dsimp only; exact hio2)).1

/- sd_write_csv_line reduced to the copy loop when the session is mounted,
the line fits the buffer, the cursor offset is nonzero and the read-back of
the current sector succeeds. -/
theorem sd_write_csv_line_to_loop (s : Sys) (cycle : Nat) (r : CycleResult)
    (ts vb hp : Nat) (hm : s.sd_mounted = true)
    (hlen : ¬128 ≤ (format_csv_line s.header_written cycle r ts vb hp).length)
    (hoffpos : 0 < s.csv_byte_offset) (hio : s.ioOk s.ioCount = true) :
    sd_write_csv_line s cycle r ts vb hp =
      csv_write_loop
        ((format_csv_line s.header_written cycle r ts vb hp).data.map Char.toNat)
        (format_csv_line s.header_written cycle r ts vb hp).length 0
        ((format_csv_line s.header_written cycle r ts vb hp).length + 2)
        { s with header_written := true, ioCount := s.ioCount + 1,
                 readLog := s.readLog ++ [s.csv_next_sector],
                 buf := fun i => s.card s.csv_next_sector i % 256 } := by
  simp only [sd_write_csv_line, hm, hlen, hoffpos, sd_read_sector, hio,
    Bool.not_true, Bool.false_eq_true, not_true, if_false, if_true]

/- The same reduction when the cursor offset is zero: the buffer is
zero-filled and no read happens. -/
theorem sd_write_csv_line_to_loop_zero (s : Sys) (cycle : Nat) (r : CycleResult)
    (ts vb hp : Nat) (hm : s.sd_mounted = true)
    (hlen : ¬128 ≤ (format_csv_line s.header_written cycle r ts vb hp).length)
    (hoffz : ¬0 < s.csv_byte_offset) :
    sd_write_csv_line s cycle r ts vb hp =
      csv_write_loop
        ((format_csv_line s.header_written cycle r ts vb hp).data.map Char.toNat)
        (format_csv_line s.header_written cycle r ts vb hp).length 0
        ((format_csv_line s.header_written cycle r ts vb hp).length + 2)
        { s with header_written := true, buf := fun _ => 0 } := by
  simp only [sd_write_csv_line, hm, hlen, hoffz, Bool.not_true,
    Bool.false_eq_true, not_true, if_false, if_true]

/- The read-back failure path: ERR_FILE_WRITE_FAILED with the cursor
untouched. -/
theorem sd_write_csv_line_read_fail (s : Sys) (cycle : Nat) (r : CycleResult)
    (ts vb hp : Nat) (hm : s.sd_mounted = true)
    (hlen : ¬128 ≤ (format_csv_line s.header_written cycle r ts vb hp).length)
    (hoffpos : 0 < s.csv_byte_offset) (hio : s.ioOk s.ioCount = false) :
    sd_write_csv_line s cycle r ts vb hp =
      (ERR_FILE_WRITE_FAILED,
       { s with header_written := true, ioCount := s.ioCount + 1,
                readLog := s.readLog ++ [s.csv_next_sector] }) := by
  simp only [sd_write_csv_line, hm, hlen, hoffpos, sd_read_sector, hio,
    Bool.not_true, Bool.false_eq_true, not_true, if_false, if_true]

/-- C6: on a successful writeCsvLine call whose formatted line exactly
fills the current 512-byte sector, exactly one sector write occurs (the
write log grows by the current sector alone) and the cursor ends at offset
0 of the next sector; on a successful call whose line spans the sector
boundary, exactly two sector writes occur (the current sector, then the
next). -/
theorem c6_boundary_flush (s : Sys) (cycle : Nat) (r : CycleResult) (ts vb hp : Nat)
    (hoff : s.csv_byte_offset < 512)
    (hok : (sd_write_csv_line s cycle r ts vb hp).1 = ERR_NONE) :
    (s.csv_byte_offset + (format_csv_line s.header_written cycle r ts vb hp).length = 512 →
       (sd_write_csv_line s cycle r ts vb hp).2.writeLog =
         s.writeLog ++ [s.csv_next_sector] ∧
       (sd_write_csv_line s cycle r ts vb hp).2.csv_next_sector =
         u32 (s.csv_next_sector + 1) ∧
       (sd_write_csv_line s cycle r ts vb hp).2.csv_byte_offset = 0) ∧
    (512 < s.csv_byte_offset + (format_csv_line s.header_written cycle r ts vb hp).length →
       (sd_write_csv_line s cycle r ts vb hp).2.writeLog =
         s.writeLog ++ [s.csv_next_sector, u32 (s.csv_next_sector + 1)]) := by
  by_cases hm : s.sd_mounted = true
  case neg =>
    have hm2 : s.sd_mounted = false := by
      cases hmv : s.sd_mounted
      · rfl
      · exact absurd hmv hm
    simp only [sd_write_csv_line, hm2, Bool.false_eq_true, not_false_eq_true,
      if_true] at hok
    exact absurd hok (by decide)
  case pos =>
  by_cases hlen : 128 ≤ (format_csv_line s.header_written cycle r ts vb hp).length
  case pos =>
    simp only [sd_write_csv_line, hm, hlen, not_true, Bool.not_true,
      Bool.false_eq_true, if_false, if_true] at hok
    exact absurd hok (by decide)
  case neg =>
  refine ⟨fun hsum => ?_, fun hspan => ?_⟩
  · -- exact fill
    have hoffpos : 0 < s.csv_byte_offset := by omega
    by_cases hio : s.ioOk s.ioCount = true
    case neg =>
      have hiof : s.ioOk s.ioCount = false := by
        cases hv : s.ioOk s.ioCount
        · rfl
        · exact absurd hv hio
      rw [sd_write_csv_line_read_fail s cycle r ts vb hp hm hlen hoffpos hiof] at hok
      dsimp only at hok
      exact absurd hok (by decide)
    case pos =>
    rw [sd_write_csv_line_to_loop s cycle r ts vb hp hm hlen hoffpos hio] at hok ⊢
    rw [show (format_csv_line s.header_written cycle r ts vb hp).length + 2 =
        (format_csv_line s.header_written cycle r ts vb hp).length + 1 + 1 from rfl]
      at hok ⊢
    have hex := csv_write_loop_exact
      ((format_csv_line s.header_written cycle r ts vb hp).data.map Char.toNat)
      (format_csv_line s.header_written cycle r ts vb hp).length 0
      ((format_csv_line s.header_written cycle r ts vb hp).length + 1)
      { s with header_written := true, ioCount := s.ioCount + 1,
               readLog := s.readLog ++ [s.csv_next_sector],
               buf := fun i => s.card s.csv_next_sector i % 256 }
      (by omega) (by dsimp only; omega)
    by_cases hio2 : s.ioOk (s.ioCount + 1) = true
    case neg =>
      have hio2f : s.ioOk (s.ioCount + 1) = false := by
        cases hv : s.ioOk (s.ioCount + 1)
        · rfl
        · exact absurd hv hio2
      obtain ⟨he, _⟩ := hex.2 (by dsimp only; exact hio2f)
      rw [he] at hok
      exact absurd hok (by decide)
    case pos =>
    obtain ⟨_, hlog, hnext, hoffz⟩ := hex.1 (by dsimp only; exact hio2)
    exact ⟨hlog.trans (by dsimp only), hnext.trans (by dsimp only), hoffz⟩
  · -- spans the boundary
    have hoffpos : 0 < s.csv_byte_offset := by omega
    by_cases hio : s.ioOk s.ioCount = true
    case neg =>
      have hiof : s.ioOk s.ioCount = false := by
        cases hv : s.ioOk s.ioCount
        · rfl
        · exact absurd hv hio
      rw [sd_write_csv_line_read_fail s cycle r ts vb hp hm hlen hoffpos hiof] at hok
      dsimp only at hok
      exact absurd hok (by decide)
    case pos =>
    rw [sd_write_csv_line_to_loop s cycle r ts vb hp hm hlen hoffpos hio] at hok ⊢
    have hsp := csv_write_loop_span
      ((format_csv_line s.header_written cycle r ts vb hp).data.map Char.toNat)
      (format_csv_line s.header_written cycle r ts vb hp).length 0
      (format_csv_line s.header_written cycle r ts vb hp).length
      { s with header_written := true, ioCount := s.ioCount + 1,
               readLog := s.readLog ++ [s.csv_next_sector],
               buf := fun i => s.card s.csv_next_sector i % 256 }
      (by omega) (by dsimp only; omega) (by dsimp only; omega) (by omega)
    by_cases hw1 : s.ioOk (s.ioCount + 1) = true
    case neg =>
      have hw1f : s.ioOk (s.ioCount + 1) = false := by
        cases hv : s.ioOk (s.ioCount + 1)
        · rfl
        · exact absurd hv hw1
      have he := hsp.2.1 (by dsimp only; exact hw1f)
      rw [he] at hok
      exact absurd hok (by decide)
    case pos =>
    by_cases hw2 : s.ioOk (s.ioCount + 1 + 1) = true
    case neg =>
      have hw2f : s.ioOk (s.ioCount + 1 + 1) = false := by
        cases hv : s.ioOk (s.ioCount + 1 + 1)
        · rfl
        · exact absurd hv hw2
      have he := hsp.2.2 (by dsimp only; exact hw1) (by dsimp only; exact hw2f)
      rw [he] at hok
      exact absurd hok (by decide)
    case pos =>
    obtain ⟨_, hlog, _, _⟩ :=
      hsp.1 (by dsimp only; exact hw1) (by dsimp only; exact hw2)
    exact hlog.trans (by dsimp only)

/-- C6 witness: the boundary theorem on the mounted test card at offset
493 with a 19-byte row, an exact fill of sector 3. -/
theorem c6_boundary_flush_witness :
    fillSys.csv_byte_offset < 512 ∧
    (sd_write_csv_line fillSys 1 smallResult 1 1 1).1 = ERR_NONE ∧
    ((fillSys.csv_byte_offset +
        (format_csv_line fillSys.header_written 1 smallResult 1 1 1).length = 512 →
       (sd_write_csv_line fillSys 1 smallResult 1 1 1).2.writeLog =
         fillSys.writeLog ++ [fillSys.csv_next_sector] ∧
       (sd_write_csv_line fillSys 1 smallResult 1 1 1).2.csv_next_sector =
         u32 (fillSys.csv_next_sector + 1) ∧
       (sd_write_csv_line fillSys 1 smallResult 1 1 1).2.csv_byte_offset = 0) ∧
     (512 < fillSys.csv_byte_offset +
        (format_csv_line fillSys.header_written 1 smallResult 1 1 1).length →
       (sd_write_csv_line fillSys 1 smallResult 1 1 1).2.writeLog =
         fillSys.writeLog ++ [fillSys.csv_next_sector, u32 (fillSys.csv_next_sector + 1)])) :=
  ⟨by decide, by decide,
   c6_boundary_flush fillSys 1 smallResult 1 1 1 (by decide) (by decide)⟩

/- Offset invariant of the copy loop: from an offset below 512 the loop can
only leave the offset at 512 on a failed flush; every other exit keeps it
below 512. -/
theorem csv_write_loop_offset_inv (bytes : List Nat) (len : Nat) :
    ∀ (fuel bw : Nat) (s : Sys), s.csv_byte_offset < 512 →
    (csv_write_loop bytes len bw fuel s).2.csv_byte_offset ≤ 512 ∧
    ((csv_write_loop bytes len bw fuel s).1 ≠ ERR_FILE_WRITE_FAILED →
      (csv_write_loop bytes len bw fuel s).2.csv_byte_offset < 512) := by
  intro fuel
  induction fuel with
  | zero =>
      intro bw s hoff
      have hst : (csv_write_loop bytes len bw 0 s).2 = s := by
        by_cases h : bw < len <;> simp [csv_write_loop, h]
      rw [hst]
      exact ⟨Nat.le_of_lt hoff, fun _ => hoff⟩
  | succ f ih =>
      intro bw s hoff
      by_cases h1 : bw < len
      case neg =>
        rw [csv_write_loop_done bytes len bw (f + 1) s h1]
        exact ⟨Nat.le_of_lt hoff, fun _ => hoff⟩
      case pos =>
      by_cases hrem : len - bw < 512 - s.csv_byte_offset
      case pos =>
        -- final chunk, stays inside the sector
        have hfin := csv_write_loop_final bytes len bw f s h1 (by omega)
        by_cases hio : s.ioOk s.ioCount = true
        · obtain ⟨_, _, _, hoffq⟩ := hfin.1 hio
          rw [hoffq]
          exact ⟨by omega, fun _ => by omega⟩
        · have hiof : s.ioOk s.ioCount = false := by
            cases hv : s.ioOk s.ioCount
            · rfl
            · exact absurd hv hio
          obtain ⟨he, hoffq⟩ := hfin.2 hiof
          rw [hoffq, he]
          exact ⟨by omega, fun habs => absurd rfl habs⟩
      case neg =>
        -- the sector fills exactly at this chunk boundary
        have hspace : (512 + 65536 - s.csv_byte_offset) % 65536 =
            512 - s.csv_byte_offset := by omega
        have hu16 : u16 (s.csv_byte_offset + (512 - s.csv_byte_offset)) = 512 := by
          unfold u16; omega
        have hfull : (512 : Nat) ≤ 512 := le_refl 512
        by_cases hio : s.ioOk s.ioCount = true
        · simp only [csv_write_loop, h1, if_true, hspace, hrem, if_false, hu16,
            hfull, true_or, sd_write_sector, hio]
          exact ih (bw + (512 - s.csv_byte_offset)) _ (by dsimp only; omega)
        · have hiof : s.ioOk s.ioCount = false := by
            cases hv : s.ioOk s.ioCount
            · rfl
            · exact absurd hv hio
          simp only [csv_write_loop, h1, if_true, hspace, hrem, if_false, hu16,
            hfull, true_or, sd_write_sector, hiof]
          simp [hiof]

theorem pair_offset_read (t : Sys) (sec : Nat) (ok : Bool) (t2 : Sys)
    (heq : sd_read_sector t sec = (ok, t2)) :
    t2.csv_byte_offset = t.csv_byte_offset := by
  have h : (sd_read_sector t sec).2.csv_byte_offset = t.csv_byte_offset := by
    by_cases hio : t.ioOk t.ioCount = true
    · rw [sd_read_sector_ok t sec hio]
    · rw [sd_read_sector_fail t sec (by simpa using hio)]
  rw [heq] at h
  exact h

theorem pair_offset_write (t : Sys) (sec : Nat) (ok : Bool) (t2 : Sys)
    (heq : sd_write_sector t sec = (ok, t2)) :
    t2.csv_byte_offset = t.csv_byte_offset := by
  have h : (sd_write_sector t sec).2.csv_byte_offset = t.csv_byte_offset := by
    by_cases hio : t.ioOk t.ioCount = true
    · rw [sd_write_sector_ok t sec hio]
    · rw [sd_write_sector_fail t sec (by simpa using hio)]
  rw [heq] at h
  exact h

/- The directory scan either leaves the cursor offset alone or sets it to a
file size modulo 512, which is below 512. -/
theorem scan_dir_offset (s : Sys) : ∀ fuel free i,
    (scan_dir s free i fuel).2.2.csv_byte_offset < 512 ∨
    (scan_dir s free i fuel).2.2.csv_byte_offset = s.csv_byte_offset := by
  intro fuel
  induction fuel with
  | zero => intro free i; exact Or.inr rfl
  | succ f ih =>
      intro free i
      by_cases h0 : s.buf (i * 32) = 0
      · simp only [scan_dir, h0, if_true]
        exact Or.inr trivial
      · by_cases h5 : s.buf (i * 32) = 0xE5
        · simpa [scan_dir, h0, h5] using ih (if free = 255 then i else free) (i + 1)
        · by_cases hmt : entry_matches s.buf (i * 32) = true
          · simp only [scan_dir, h0, h5, hmt, if_true, if_false]
            exact Or.inl (Nat.mod_lt _ (by omega))
          · simpa [scan_dir, h0, h5, hmt] using ih free (i + 1)

/- File locate/create either leaves the cursor offset alone (failure before
any cursor assignment) or ends with it below 512: a found file gives
size % 512, a created file gives 0. -/
theorem fat32_focf_offset (s : Sys) :
    (fat32_find_or_create_file s).2.csv_byte_offset < 512 ∨
    (fat32_find_or_create_file s).2.csv_byte_offset = s.csv_byte_offset := by
  unfold fat32_find_or_create_file
  dsimp only
  split
  next s1 heq => exact Or.inr (pair_offset_read _ _ _ _ heq)
  next s1 heq =>
    have h1 := pair_offset_read _ _ _ _ heq
    split
    next u s2 heq2 =>
      have h2 := scan_dir_offset s1 16 255 0
      rw [heq2] at h2
      rcases h2 with h2 | h2
      · exact Or.inl h2
      · exact Or.inr (h2.trans h1)
    next free s2 heq2 =>
      have h2 := scan_dir_offset s1 16 255 0
      rw [heq2] at h2
      by_cases hf : free < 16
      · rw [if_pos hf]
        split
        next s4 heq4 =>
          have h4 := pair_offset_write _ _ _ _ heq4
          rcases h2 with h2 | h2
          · exact Or.inl (by rw [h4]; exact h2)
          · exact Or.inr ((h4.trans h2).trans h1)
        next s4 heq4 =>
          split
          next s6 heq6 =>
            have h6 := pair_offset_read _ _ _ _ heq6
            exact Or.inl (by rw [h6]; dsimp only; omega)
          next s6 heq6 =>
            have h6 := pair_offset_read _ _ _ _ heq6
            split
            next s8 heq8 =>
              have h8 := pair_offset_write _ _ _ _ heq8
              exact Or.inl (by rw [h8, h6]; dsimp only; omega)
            next s8 heq8 =>
              have h8 := pair_offset_write _ _ _ _ heq8
              exact Or.inl (by rw [h8, h6]; dsimp only; omega)
      · rw [if_neg hf]
        rcases h2 with h2 | h2
        · exact Or.inl h2
        · exact Or.inr (h2.trans h1)

/-- C10 (amended): file locate/create leaves the cursor byte offset below
512 whenever it assigns it (file size modulo 512 on a find, 0 on a
creation), otherwise leaves it unchanged; and writeCsvLine, entered with an
offset below 512, returns with the offset at most 512, and strictly below
512 unless it returns ERR_FILE_WRITE_FAILED - a failed flush of an exactly
full sector can leave the offset at 512, as the counterexample shows, so
the original "0..511 after every return" does not hold. -/
theorem c10_amended_offsets :
    (∀ s : Sys,
       (fat32_find_or_create_file s).2.csv_byte_offset < 512 ∨
       (fat32_find_or_create_file s).2.csv_byte_offset = s.csv_byte_offset) ∧
    (∀ (s : Sys) (cycle : Nat) (r : CycleResult) (ts vb hp : Nat),
       s.csv_byte_offset < 512 →
       (sd_write_csv_line s cycle r ts vb hp).2.csv_byte_offset ≤ 512 ∧
       ((sd_write_csv_line s cycle r ts vb hp).1 ≠ ERR_FILE_WRITE_FAILED →
          (sd_write_csv_line s cycle r ts vb hp).2.csv_byte_offset < 512)) := by
  refine ⟨fat32_focf_offset, ?_⟩
  intro s cycle r ts vb hp hoff
  by_cases hm : s.sd_mounted = true
  case neg =>
    have hm2 : s.sd_mounted = false := by
      cases hmv : s.sd_mounted
      · rfl
      · exact absurd hmv hm
    simp only [sd_write_csv_line, hm2, Bool.false_eq_true, not_false_eq_true, if_true]
    exact ⟨Nat.le_of_lt hoff, fun _ => hoff⟩
  case pos =>
  by_cases hlen : 128 ≤ (format_csv_line s.header_written cycle r ts vb hp).length
  case pos =>
    simp only [sd_write_csv_line, hm, hlen, not_true, Bool.not_true,
      Bool.false_eq_true, if_false, if_true]
    exact ⟨Nat.le_of_lt hoff, fun _ => hoff⟩
  case neg =>
  by_cases hoffpos : 0 < s.csv_byte_offset
  · by_cases hio : s.ioOk s.ioCount = true
    · rw [sd_write_csv_line_to_loop s cycle r ts vb hp hm hlen hoffpos hio]
      exact csv_write_loop_offset_inv _ _ _ 0 _ (by dsimp only; omega)
    · have hiof : s.ioOk s.ioCount = false := by
        cases hv : s.ioOk s.ioCount
        · rfl
        · exact absurd hv hio
      rw [sd_write_csv_line_read_fail s cycle r ts vb hp hm hlen hoffpos hiof]
      refine ⟨by dsimp only; omega, fun habs => absurd rfl habs⟩
  · rw [sd_write_csv_line_to_loop_zero s cycle r ts vb hp hm hlen hoffpos]
    exact csv_write_loop_offset_inv _ _ _ 0 _ (by dsimp only; omega)

/-- C10 counterexample: on the mounted test card at offset 493 of sector 3
with a 19-byte row (an exact sector fill), the read-back succeeds but the
flush fails: writeCsvLine returns ERR_FILE_WRITE_FAILED with the cursor
byte offset left at exactly 512, outside the claimed 0..511 range. -/
theorem c10_counterexample :
    flushFailSys.csv_byte_offset < 512 ∧
    (sd_write_csv_line flushFailSys 1 smallResult 1 1 1).1 = ERR_FILE_WRITE_FAILED ∧
    (sd_write_csv_line flushFailSys 1 smallResult 1 1 1).2.csv_byte_offset = 512 := by
  decide

/-- C10 witness: the amended offset theorem on the mounted test card. -/
theorem c10_amended_offsets_witness :
    mountedSys.csv_byte_offset < 512 ∧
    ((sd_write_csv_line mountedSys 1 smallResult 1 1 1).2.csv_byte_offset ≤ 512 ∧
     ((sd_write_csv_line mountedSys 1 smallResult 1 1 1).1 ≠ ERR_FILE_WRITE_FAILED →
        (sd_write_csv_line mountedSys 1 smallResult 1 1 1).2.csv_byte_offset < 512)) :=
  ⟨by decide, c10_amended_offsets.2 mountedSys 1 smallResult 1 1 1 (by decide)⟩
